import Mathlib

/-!
Verification of the Arctic Tracker CITES data pipeline.

This file gives a shallow embedding of the core pipeline of the
Arctic-Tracker-API repository and proves properties of it:

* `optimize_species_trade_json.py` / `optimized_reader.py`: dictionary
  normalization of trade records and its reader counterpart
  (round-trip and determinism of the lookup tables);
* `execute_final_migration.py`: the staging-to-production merge
  (idempotence, batch failure behaviour);
* `load_to_staging.py` / `resume_staging_load.py`: species-id resolution,
  staging record preparation and batched loading;
* `validate_staging.py`: the record-count validation check;
* `backup_cites_data.py`: backup validation;
* `extract_arctic_trade_data.py`: streaming extraction statistics.

Python dict fields that default to the empty string are modelled as total
`String` fields; nullable columns as `Option`; numeric pass-through cells
(only stored and compared, never computed with) as `Option Int`.
External stores (Supabase tables) are modelled as explicit list states.
-/

namespace ArcticTracker

/-! ## List utilities

`sortedDedup` models Python's `sorted(set(xs))`; `idxOf?` models lookup in a
dict built by `{v: i for i, v in enumerate(xs)}` over a duplicate-free list
(equivalently, the first-match linear scan used for `taxonomic_id`). -/

/-- First index of `a` in `l`, or `none` when absent: the semantics of
`dict.get(a, None)` for a dict mapping each element of a duplicate-free
list to its position. -/
def idxOf? {α : Type} [DecidableEq α] (a : α) : List α → Option Nat
  | [] => none
  | b :: bs => if a = b then some 0 else (idxOf? a bs).map (· + 1)

/-- Python's `sorted(set(l))`. -/
def sortedDedup {α : Type} [LinearOrder α] (l : List α) : List α :=
  List.insertionSort (· ≤ ·) l.dedup

theorem idxOf?_bind_getElem {α : Type} [DecidableEq α] {a : α} {l : List α}
    (h : a ∈ l) : (idxOf? a l).bind (fun i => l[i]?) = some a := by
  induction l with
  | nil => cases h
  | cons b bs ih =>
    by_cases hab : a = b
    · simp [idxOf?, hab]
    · have hmem : a ∈ bs := by
        cases h with
        | head => exact absurd rfl hab
        | tail _ h => exact h
      rw [idxOf?, if_neg hab]
      cases hm : idxOf? a bs with
      | none => rw [hm] at ih; simp at ih; exact absurd (ih hmem) (by simp)
      | some j =>
        rw [hm] at ih
        simp only [Option.map_some', Option.bind_some, List.getElem?_cons_succ]
        simpa using ih hmem

theorem idxOf?_eq_none {α : Type} [DecidableEq α] {a : α} {l : List α}
    (h : a ∉ l) : idxOf? a l = none := by
  induction l with
  | nil => rfl
  | cons b bs ih =>
    have hab : a ≠ b := fun habs => h (habs ▸ List.mem_cons_self a bs)
    have hbs : a ∉ bs := fun habs => h (List.mem_cons_of_mem b habs)
    rw [idxOf?, if_neg hab, ih hbs]
    rfl

theorem mem_sortedDedup {α : Type} [LinearOrder α] {a : α} {l : List α} :
    a ∈ sortedDedup l ↔ a ∈ l :=
  ((List.perm_insertionSort _ _).mem_iff).trans List.mem_dedup

theorem sortedDedup_sorted {α : Type} [LinearOrder α] (l : List α) :
    List.Sorted (· ≤ ·) (sortedDedup l) :=
  List.sorted_insertionSort _ _

theorem sortedDedup_nodup {α : Type} [LinearOrder α] (l : List α) :
    (sortedDedup l).Nodup :=
  ((List.perm_insertionSort _ _).nodup_iff).mpr (List.nodup_dedup l)

theorem sortedDedup_eq_of_perm {α : Type} [LinearOrder α] {l₁ l₂ : List α}
    (h : List.Perm l₁ l₂) : sortedDedup l₁ = sortedDedup l₂ :=
  List.eq_of_perm_of_sorted
    (((List.perm_insertionSort _ _).trans h.dedup).trans
      (List.perm_insertionSort _ _).symm)
    (sortedDedup_sorted _) (sortedDedup_sorted _)

/-! ## Normalization engine (`optimize_species_trade_json.py`)

`TradeDataOptimizer.extract_lookup_tables` builds the lookup tables and the
normalized records; `OptimizedTradeDataReader.get_denormalized_records`
rebuilds the original rows from them. -/

/-- A raw trade record from a species trade-data JSON file. Fields read with
`record.get(field, '')` in the source are total strings (absent collapses to
`''` before any use); `year`, `quantity_normalized` and `row_number` are
nullable pass-through data. -/
structure TradeRecord where
  id : String
  year : Option Nat
  appendix : String
  class_ : String
  order : String
  family : String
  genus : String
  importer : String
  exporter : String
  origin : String
  term : String
  purpose : String
  source : String
  reporter_type : String
  unit : String
  quantity_raw : String
  quantity_normalized : Option Int
  source_file : String
  row_number : Option Nat
  deriving DecidableEq, Repr

/-- The tuple `(appendix, class, order, family, genus)` of the static
taxonomic fields, as ordered in `static_fields`. -/
def staticCombo (r : TradeRecord) : List String :=
  [r.appendix, r.class_, r.order, r.family, r.genus]

/-- The lookup tables built by `extract_lookup_tables`. Each table is the
sorted duplicate-free list of distinct values; the integer id of a value is
its position, and the reverse mapping is positional indexing. The five
categorical tables are those for `term`, `purpose`, `source`,
`reporter_type` and `unit`. -/
structure LookupTables where
  taxonomic : List (List String)
  locations : List String
  term : List String
  purpose : List String
  source : List String
  reporter_type : List String
  unit : List String
  deriving DecidableEq, Repr

/-- A normalized trade record: redundant fields replaced by lookup-table
ids, `none` modelling a key removed by the `if v is not None` sweep. -/
structure NormalizedRecord where
  id : String
  year : Option Nat
  taxonomic_id : Option Nat
  term_id : Option Nat
  quantity_raw : String
  quantity_normalized : Option Int
  unit_id : Option Nat
  importer_id : Option Nat
  exporter_id : Option Nat
  origin_id : Option Nat
  purpose_id : Option Nat
  source_id : Option Nat
  reporter_type_id : Option Nat
  source_file : String
  row_number : Option Nat
  deriving DecidableEq, Repr

/-- Normalization of one record against the lookup tables: each lookup is a
`dict.get(..., None)` against a table mapping value to position (for
`taxonomic_id`, the source's first-match linear scan over the table, which
coincides with the first index). -/
def normalizeRecord (tables : LookupTables) (r : TradeRecord) : NormalizedRecord :=
  { id := r.id
    year := r.year
    taxonomic_id := idxOf? (staticCombo r) tables.taxonomic
    term_id := idxOf? r.term tables.term
    quantity_raw := r.quantity_raw
    quantity_normalized := r.quantity_normalized
    unit_id := idxOf? r.unit tables.unit
    importer_id := idxOf? r.importer tables.locations
    exporter_id := idxOf? r.exporter tables.locations
    origin_id := idxOf? r.origin tables.locations
    purpose_id := idxOf? r.purpose tables.purpose
    source_id := idxOf? r.source tables.source
    reporter_type_id := idxOf? r.reporter_type tables.reporter_type
    source_file := r.source_file
    row_number := r.row_number }

/-- Model of `TradeDataOptimizer.extract_lookup_tables`: builds the taxonomic,
location and categorical lookup tables (`sorted(set(...))` with empty
strings excluded from the location and categorical tables) and rewrites
every record as a `NormalizedRecord`. -/
def extract_lookup_tables (trade_records : List TradeRecord) :
    LookupTables × List NormalizedRecord :=
  let catValues (f : TradeRecord → String) : List String :=
    sortedDedup ((trade_records.map f).filter (fun v => v ≠ ""))
  let tables : LookupTables :=
    { taxonomic := sortedDedup (trade_records.map staticCombo)
      locations := sortedDedup (trade_records.flatMap
        (fun r => ([r.importer, r.exporter, r.origin]).filter (fun v => v ≠ "")))
      term := catValues (fun r => r.term)
      purpose := catValues (fun r => r.purpose)
      source := catValues (fun r => r.source)
      reporter_type := catValues (fun r => r.reporter_type)
      unit := catValues (fun r => r.unit) }
  (tables, trade_records.map (normalizeRecord tables))

/-- A record rebuilt by the reader. The five taxonomic keys are written
together by `full_record.update(taxonomic_lookup[taxonomic_id])` or not at
all, so they are modelled as one optional combo; every other lookup-covered
field falls back to `''` on a missed lookup. -/
structure DenormalizedRecord where
  id : String
  year : Option Nat
  quantity_raw : String
  quantity_normalized : Option Int
  source_file : String
  row_number : Option Nat
  taxonomic_fields : Option (List String)
  importer : String
  exporter : String
  origin : String
  term : String
  purpose : String
  source : String
  reporter_type : String
  unit : String
  deriving DecidableEq, Repr

/-- Reconstruction of one record by the reader: positional indexing into
the tables (`id in lookup` guards becoming bounds checks), with `''` when a
field id is absent or out of range. -/
def denormalizeRecord (tables : LookupTables) (n : NormalizedRecord) :
    DenormalizedRecord :=
  { id := n.id
    year := n.year
    quantity_raw := n.quantity_raw
    quantity_normalized := n.quantity_normalized
    source_file := n.source_file
    row_number := n.row_number
    taxonomic_fields := n.taxonomic_id.bind (fun i => tables.taxonomic[i]?)
    importer := ((n.importer_id.bind (fun i => tables.locations[i]?)).getD "")
    exporter := ((n.exporter_id.bind (fun i => tables.locations[i]?)).getD "")
    origin := ((n.origin_id.bind (fun i => tables.locations[i]?)).getD "")
    term := ((n.term_id.bind (fun i => tables.term[i]?)).getD "")
    purpose := ((n.purpose_id.bind (fun i => tables.purpose[i]?)).getD "")
    source := ((n.source_id.bind (fun i => tables.source[i]?)).getD "")
    reporter_type := ((n.reporter_type_id.bind
      (fun i => tables.reporter_type[i]?)).getD "")
    unit := ((n.unit_id.bind (fun i => tables.unit[i]?)).getD "") }

/-- Model of `OptimizedTradeDataReader.get_denormalized_records`: rebuilds every
stored record against the file's lookup tables. -/
def get_denormalized_records (tables : LookupTables)
    (trade_records : List NormalizedRecord) : List DenormalizedRecord :=
  trade_records.map (denormalizeRecord tables)

/-- Agreement of a rebuilt record with the original on every field covered
by the lookup tables. -/
def roundTripAgrees (d : DenormalizedRecord) (r : TradeRecord) : Prop :=
  d.taxonomic_fields = some (staticCombo r) ∧
  d.importer = r.importer ∧ d.exporter = r.exporter ∧ d.origin = r.origin ∧
  d.term = r.term ∧ d.purpose = r.purpose ∧ d.source = r.source ∧
  d.reporter_type = r.reporter_type ∧ d.unit = r.unit

theorem lookup_field_roundtrip {values : List String} {v : String}
    (hmem : v ≠ "" → v ∈ values) (hne : ∀ w ∈ values, w ≠ "") :
    ((idxOf? v values).bind (fun i => values[i]?)).getD "" = v := by
  by_cases hv : v = ""
  · subst hv
    rw [idxOf?_eq_none (fun habs => hne "" habs rfl)]
    rfl
  · rw [idxOf?_bind_getElem (hmem hv)]
    rfl

/-- A sample raw trade record used by concrete witnesses below. -/
def sampleTradeRecord : TradeRecord :=
  { id := "1"
    year := some 2000
    appendix := "II"
    class_ := "Aves"
    order := ""
    family := "F"
    genus := "G"
    importer := "US"
    exporter := ""
    origin := "CA"
    term := "skins"
    purpose := "T"
    source := "W"
    reporter_type := "I"
    unit := ""
    quantity_raw := "2"
    quantity_normalized := some 2
    source_file := "f.csv"
    row_number := some 7 }

theorem extract_tables_taxonomic (l : List TradeRecord) :
    (extract_lookup_tables l).1.taxonomic = sortedDedup (l.map staticCombo) := rfl

theorem extract_tables_locations (l : List TradeRecord) :
    (extract_lookup_tables l).1.locations = sortedDedup (l.flatMap
      (fun r => ([r.importer, r.exporter, r.origin]).filter (fun v => v ≠ ""))) := rfl

theorem extract_tables_term (l : List TradeRecord) :
    (extract_lookup_tables l).1.term =
      sortedDedup ((l.map (fun r => r.term)).filter (fun v => v ≠ "")) := rfl

theorem extract_tables_purpose (l : List TradeRecord) :
    (extract_lookup_tables l).1.purpose =
      sortedDedup ((l.map (fun r => r.purpose)).filter (fun v => v ≠ "")) := rfl

theorem extract_tables_source (l : List TradeRecord) :
    (extract_lookup_tables l).1.source =
      sortedDedup ((l.map (fun r => r.source)).filter (fun v => v ≠ "")) := rfl

theorem extract_tables_reporter_type (l : List TradeRecord) :
    (extract_lookup_tables l).1.reporter_type =
      sortedDedup ((l.map (fun r => r.reporter_type)).filter (fun v => v ≠ "")) := rfl

theorem extract_tables_unit (l : List TradeRecord) :
    (extract_lookup_tables l).1.unit =
      sortedDedup ((l.map (fun r => r.unit)).filter (fun v => v ≠ "")) := rfl

theorem extract_tables_records (l : List TradeRecord) :
    (extract_lookup_tables l).2 = l.map (normalizeRecord (extract_lookup_tables l).1) := rfl

theorem mem_catTable {l : List TradeRecord} {f : TradeRecord → String}
    {r : TradeRecord} (hr : r ∈ l) (hv : f r ≠ "") :
    f r ∈ sortedDedup ((l.map f).filter (fun v => v ≠ "")) :=
  mem_sortedDedup.mpr (List.mem_filter.mpr
    ⟨List.mem_map_of_mem f hr, by simpa using hv⟩)

theorem catTable_ne_empty {l : List TradeRecord} {f : TradeRecord → String}
    {w : String} (hw : w ∈ sortedDedup ((l.map f).filter (fun v => v ≠ ""))) :
    w ≠ "" := by
  have := List.of_mem_filter (mem_sortedDedup.mp hw)
  simpa using this

theorem mem_locTable {l : List TradeRecord} {r : TradeRecord} {v : String}
    (hr : r ∈ l) (hfield : v ∈ [r.importer, r.exporter, r.origin]) (hv : v ≠ "") :
    v ∈ sortedDedup (l.flatMap
      (fun r => ([r.importer, r.exporter, r.origin]).filter (fun v => v ≠ ""))) :=
  mem_sortedDedup.mpr (List.mem_flatMap.mpr
    ⟨r, hr, List.mem_filter.mpr ⟨hfield, by simpa using hv⟩⟩)

theorem locTable_ne_empty {l : List TradeRecord} {w : String}
    (hw : w ∈ sortedDedup (l.flatMap
      (fun r => ([r.importer, r.exporter, r.origin]).filter (fun v => v ≠ "")))) :
    w ≠ "" := by
  obtain ⟨r, -, hf⟩ := List.mem_flatMap.mp (mem_sortedDedup.mp hw)
  have := List.of_mem_filter hf
  simpa using this

theorem roundTrip_mem {trade_records : List TradeRecord} {r : TradeRecord}
    (h : r ∈ trade_records) :
    roundTripAgrees
      (denormalizeRecord (extract_lookup_tables trade_records).1
        (normalizeRecord (extract_lookup_tables trade_records).1 r)) r := by
  refine ⟨?_, ?_, ?_, ?_, ?_, ?_, ?_, ?_, ?_⟩
  · show (idxOf? (staticCombo r) (extract_lookup_tables trade_records).1.taxonomic).bind
      (fun i => (extract_lookup_tables trade_records).1.taxonomic[i]?) = some (staticCombo r)
    rw [extract_tables_taxonomic]
    exact idxOf?_bind_getElem (mem_sortedDedup.mpr (List.mem_map_of_mem staticCombo h))
  · show ((idxOf? r.importer (extract_lookup_tables trade_records).1.locations).bind
      (fun i => (extract_lookup_tables trade_records).1.locations[i]?)).getD "" = r.importer
    rw [extract_tables_locations]
    exact lookup_field_roundtrip
      (fun hv => mem_locTable h (by simp) hv) (fun w hw => locTable_ne_empty hw)
  · show ((idxOf? r.exporter (extract_lookup_tables trade_records).1.locations).bind
      (fun i => (extract_lookup_tables trade_records).1.locations[i]?)).getD "" = r.exporter
    rw [extract_tables_locations]
    exact lookup_field_roundtrip
      (fun hv => mem_locTable h (by simp) hv) (fun w hw => locTable_ne_empty hw)
  · show ((idxOf? r.origin (extract_lookup_tables trade_records).1.locations).bind
      (fun i => (extract_lookup_tables trade_records).1.locations[i]?)).getD "" = r.origin
    rw [extract_tables_locations]
    exact lookup_field_roundtrip
      (fun hv => mem_locTable h (by simp) hv) (fun w hw => locTable_ne_empty hw)
  · show ((idxOf? r.term (extract_lookup_tables trade_records).1.term).bind
      (fun i => (extract_lookup_tables trade_records).1.term[i]?)).getD "" = r.term
    rw [extract_tables_term]
    exact lookup_field_roundtrip
      (fun hv => mem_catTable h hv) (fun w hw => catTable_ne_empty hw)
  · show ((idxOf? r.purpose (extract_lookup_tables trade_records).1.purpose).bind
      (fun i => (extract_lookup_tables trade_records).1.purpose[i]?)).getD "" = r.purpose
    rw [extract_tables_purpose]
    exact lookup_field_roundtrip
      (fun hv => mem_catTable h hv) (fun w hw => catTable_ne_empty hw)
  · show ((idxOf? r.source (extract_lookup_tables trade_records).1.source).bind
      (fun i => (extract_lookup_tables trade_records).1.source[i]?)).getD "" = r.source
    rw [extract_tables_source]
    exact lookup_field_roundtrip
      (fun hv => mem_catTable h hv) (fun w hw => catTable_ne_empty hw)
  · show ((idxOf? r.reporter_type (extract_lookup_tables trade_records).1.reporter_type).bind
      (fun i => (extract_lookup_tables trade_records).1.reporter_type[i]?)).getD ""
        = r.reporter_type
    rw [extract_tables_reporter_type]
    exact lookup_field_roundtrip
      (fun hv => mem_catTable h hv) (fun w hw => catTable_ne_empty hw)
  · show ((idxOf? r.unit (extract_lookup_tables trade_records).1.unit).bind
      (fun i => (extract_lookup_tables trade_records).1.unit[i]?)).getD "" = r.unit
    rw [extract_tables_unit]
    exact lookup_field_roundtrip
      (fun hv => mem_catTable h hv) (fun w hw => catTable_ne_empty hw)

/-- C1: normalizing a list of trade records with `extract_lookup_tables` and
denormalizing each `NormalizedRecord` with `get_denormalized_records` against
the lookup tables built from that list reproduces, record by record, the
original value of every field covered by the lookup tables (appendix, class,
order, family, genus, importer, exporter, origin, term, purpose, source,
reporter_type, unit); a field that was the empty string comes back as the
empty string. -/
theorem denormalize_normalize_roundtrip (trade_records : List TradeRecord) :
    List.Forall₂ roundTripAgrees
      (get_denormalized_records (extract_lookup_tables trade_records).1
        (extract_lookup_tables trade_records).2) trade_records := by
  rw [extract_tables_records]
  unfold get_denormalized_records
  rw [List.map_map]
  have aux : ∀ sub : List TradeRecord, (∀ r ∈ sub, r ∈ trade_records) →
      List.Forall₂ roundTripAgrees
        (sub.map ((denormalizeRecord (extract_lookup_tables trade_records).1) ∘
          (normalizeRecord (extract_lookup_tables trade_records).1))) sub := by
    intro sub hsub
    induction sub with
    | nil => exact List.Forall₂.nil
    | cons a as ih =>
      exact List.Forall₂.cons (roundTrip_mem (hsub a (List.mem_cons_self a as)))
        (ih (fun r hr => hsub r (List.mem_cons_of_mem a hr)))
  exact aux trade_records (fun r hr => hr)

/-- A lookup table is the sorted duplicate-free enumeration of exactly the
given candidate values: ids are the dense positions `0..n-1`, assigned in
sorted order of the distinct values present. -/
def denseSortedTable {α : Type} [LinearOrder α] (table : List α)
    (values : List α) : Prop :=
  List.Sorted (· ≤ ·) table ∧ table.Nodup ∧ ∀ v, v ∈ table ↔ v ∈ values

theorem denseSortedTable_sortedDedup {α : Type} [LinearOrder α]
    (values : List α) : denseSortedTable (sortedDedup values) values :=
  ⟨sortedDedup_sorted values, sortedDedup_nodup values,
    fun _ => mem_sortedDedup⟩

/-- The candidate values of the locations table: every non-empty importer,
exporter or origin value of the input records. -/
def locationValues (l : List TradeRecord) : List String :=
  l.flatMap (fun r => ([r.importer, r.exporter, r.origin]).filter (fun v => v ≠ ""))

/-- The candidate values of one categorical table: every non-empty value of
the field over the input records. -/
def categoricalValues (l : List TradeRecord) (f : TradeRecord → String) : List String :=
  (l.map f).filter (fun v => v ≠ "")

/-- C4: the lookup tables built by `extract_lookup_tables` are a pure,
order-canonical function of the input: equal (indeed merely permuted) input
record lists yield identical tables, and each table — taxonomic, locations
and the five categorical tables — is the sorted duplicate-free enumeration
of the distinct values present, so ids are dense positions `0..n-1`
assigned in sorted order. -/
theorem extract_lookup_tables_deterministic
    (trade_records other : List TradeRecord)
    (hperm : List.Perm trade_records other) :
    (extract_lookup_tables trade_records).1 = (extract_lookup_tables other).1 ∧
    denseSortedTable (extract_lookup_tables trade_records).1.taxonomic
      (trade_records.map staticCombo) ∧
    denseSortedTable (extract_lookup_tables trade_records).1.locations
      (locationValues trade_records) ∧
    denseSortedTable (extract_lookup_tables trade_records).1.term
      (categoricalValues trade_records (fun r => r.term)) ∧
    denseSortedTable (extract_lookup_tables trade_records).1.purpose
      (categoricalValues trade_records (fun r => r.purpose)) ∧
    denseSortedTable (extract_lookup_tables trade_records).1.source
      (categoricalValues trade_records (fun r => r.source)) ∧
    denseSortedTable (extract_lookup_tables trade_records).1.reporter_type
      (categoricalValues trade_records (fun r => r.reporter_type)) ∧
    denseSortedTable (extract_lookup_tables trade_records).1.unit
      (categoricalValues trade_records (fun r => r.unit)) := by
  refine ⟨?_, denseSortedTable_sortedDedup _, denseSortedTable_sortedDedup _,
    denseSortedTable_sortedDedup _, denseSortedTable_sortedDedup _,
    denseSortedTable_sortedDedup _, denseSortedTable_sortedDedup _,
    denseSortedTable_sortedDedup _⟩
  have hcat : ∀ f : TradeRecord → String,
      sortedDedup ((trade_records.map f).filter (fun v => v ≠ "")) =
      sortedDedup ((other.map f).filter (fun v => v ≠ "")) := fun f =>
    sortedDedup_eq_of_perm ((hperm.map f).filter _)
  have htax : sortedDedup (trade_records.map staticCombo) =
      sortedDedup (other.map staticCombo) :=
    sortedDedup_eq_of_perm (hperm.map staticCombo)
  have hloc : sortedDedup (locationValues trade_records) =
      sortedDedup (locationValues other) :=
    sortedDedup_eq_of_perm (hperm.flatMap_right _)
  rw [extract_lookup_tables, extract_lookup_tables]
  simp only [LookupTables.mk.injEq]
  exact ⟨htax, hloc, hcat _, hcat _, hcat _, hcat _, hcat _⟩

/-- Witness for C4: the determinism theorem applied at a concrete
one-record input, the permutation hypothesis discharged by reflexivity. -/
theorem extract_lookup_tables_deterministic_witness :
    (extract_lookup_tables [sampleTradeRecord]).1 =
      (extract_lookup_tables [sampleTradeRecord]).1 ∧
    denseSortedTable (extract_lookup_tables [sampleTradeRecord]).1.taxonomic
      ([sampleTradeRecord].map staticCombo) ∧
    denseSortedTable (extract_lookup_tables [sampleTradeRecord]).1.locations
      (locationValues [sampleTradeRecord]) ∧
    denseSortedTable (extract_lookup_tables [sampleTradeRecord]).1.term
      (categoricalValues [sampleTradeRecord] (fun r => r.term)) ∧
    denseSortedTable (extract_lookup_tables [sampleTradeRecord]).1.purpose
      (categoricalValues [sampleTradeRecord] (fun r => r.purpose)) ∧
    denseSortedTable (extract_lookup_tables [sampleTradeRecord]).1.source
      (categoricalValues [sampleTradeRecord] (fun r => r.source)) ∧
    denseSortedTable (extract_lookup_tables [sampleTradeRecord]).1.reporter_type
      (categoricalValues [sampleTradeRecord] (fun r => r.reporter_type)) ∧
    denseSortedTable (extract_lookup_tables [sampleTradeRecord]).1.unit
      (categoricalValues [sampleTradeRecord] (fun r => r.unit)) :=
  extract_lookup_tables_deterministic [sampleTradeRecord] [sampleTradeRecord]
    (List.Perm.refl _)

/-! ## Merge engine (`execute_final_migration.py`)

`CitesMigrator.execute_migration` fetches every staging row, strips the
staging-specific columns, and inserts the rows into production in batches of
1000. The production store is modelled as an explicit list; its uniqueness
constraint over the natural key (the claim's stated assumption) makes a
batch insert atomic: the whole batch is appended when no row of it collides
(with production or within the batch), and the whole statement is rejected
otherwise, which is what `except ... continue` observes. -/

/-- One production (and staging-payload) record of `cites_trade_records`,
with the columns inserted by the migration. Numeric quantity columns are
pass-through data modelled as `Option Int`. -/
structure CitesRecord where
  species_id : Option String
  year : Int
  appendix : Option String
  taxon : String
  class_ : Option String
  order_name : Option String
  family : Option String
  genus : Option String
  importer : Option String
  exporter : Option String
  origin : Option String
  importer_reported_quantity : Option Int
  exporter_reported_quantity : Option Int
  term : Option String
  unit : Option String
  purpose : Option String
  source : Option String
  data_source : String
  deriving DecidableEq, Repr

/-- A row of the staging table as fetched by the migrator: the payload plus
the staging-specific columns `id`, `created_at`, `updated_at` that
`execute_migration` strips before inserting. -/
structure StagingTableRow where
  id : String
  created_at : String
  updated_at : String
  payload : CitesRecord
  deriving DecidableEq, Repr

/-- The `clean_record` step: drop `id`/`created_at`/`updated_at` and set
`data_source` to `'CITES v2025.1'`. -/
def cleanRecord (row : StagingTableRow) : CitesRecord :=
  { row.payload with data_source := "CITES v2025.1" }

/-- The composite natural key of a production record: `(species_id, year,
COALESCE(appendix,''), taxon, COALESCE(importer,''), COALESCE(exporter,''),
COALESCE(term,''), COALESCE(purpose,''), COALESCE(source,''))`. -/
structure NatKey where
  species_id : Option String
  year : Int
  appendix : String
  taxon : String
  importer : String
  exporter : String
  term : String
  purpose : String
  source : String
  deriving DecidableEq, Repr

/-- The natural key of a record, nullable text columns coalesced to `''`. -/
def natKey (p : CitesRecord) : NatKey :=
  { species_id := p.species_id
    year := p.year
    appendix := p.appendix.getD ""
    taxon := p.taxon
    importer := p.importer.getD ""
    exporter := p.exporter.getD ""
    term := p.term.getD ""
    purpose := p.purpose.getD ""
    source := p.source.getD "" }

/-- A batch insert succeeds exactly when the uniqueness constraint over the
natural key is not violated: no two rows of the batch share a key and no row
collides with a key already in production. -/
def batchOk (prod : List CitesRecord) (batch : List CitesRecord) : Prop :=
  (batch.map natKey).Nodup ∧ ∀ r ∈ batch, natKey r ∉ prod.map natKey

instance (prod batch : List CitesRecord) : Decidable (batchOk prod batch) := by
  unfold batchOk
  infer_instance

/-- Atomic batch insert under the uniqueness constraint: append the whole
batch on success, reject the whole statement (leaving production unchanged)
on a duplicate-key violation. -/
def insertBatch (prod : List CitesRecord) (batch : List CitesRecord) : List CitesRecord :=
  if batchOk prod batch then prod ++ batch else prod

/-- The migration's insert loop: each batch is attempted in order; a
rejected batch is skipped (`except ... continue`) and the loop proceeds with
the next batch. -/
def processBatches (prod : List CitesRecord) (batches : List (List CitesRecord)) :
    List CitesRecord :=
  batches.foldl insertBatch prod

/-- The slicing `records[i:i + batch_size]` for `i in range(0, len, n)`,
computed with an explicit fuel bound (the list length) for termination. -/
def chunksOfAux {α : Type} (n : Nat) : Nat → List α → List (List α)
  | 0, _ => []
  | _, [] => []
  | fuel + 1, l@(_ :: _) => l.take n :: chunksOfAux n fuel (l.drop n)

/-- Split a list into consecutive chunks of size `n` (the last may be
shorter). -/
def chunksOf {α : Type} (n : Nat) (l : List α) : List (List α) :=
  chunksOfAux n l.length l

/-- Model of `CitesMigrator.execute_migration`: in dry-run mode nothing is executed;
otherwise all staging rows are fetched, cleaned, and inserted into
production in batches of 1000, duplicate-rejected batches being skipped. -/
def execute_migration (dry_run : Bool) (staging : List StagingTableRow)
    (prod : List CitesRecord) : List CitesRecord :=
  if dry_run then prod
  else processBatches prod ((chunksOf 1000 staging).map (fun b => b.map cleanRecord))

theorem subset_insertBatch (prod batch : List CitesRecord) :
    prod ⊆ insertBatch prod batch := by
  unfold insertBatch
  split
  · exact List.subset_append_left _ _
  · exact fun _ h => h

theorem subset_processBatches (batches : List (List CitesRecord))
    (prod : List CitesRecord) : prod ⊆ processBatches prod batches := by
  induction batches generalizing prod with
  | nil => exact fun _ h => h
  | cons b bs ih =>
    exact (subset_insertBatch prod b).trans (ih (insertBatch prod b))

theorem batchOk_mono {p q : List CitesRecord} {b : List CitesRecord}
    (hsub : p ⊆ q) (h : batchOk q b) : batchOk p b :=
  ⟨h.1, fun r hr hk => h.2 r hr (List.map_subset natKey hsub hk)⟩

theorem processBatches_blocks :
    ∀ (batches : List (List CitesRecord)) (prod : List CitesRecord),
      (∀ b ∈ batches, b ≠ []) →
      ∀ b ∈ batches, ¬ batchOk (processBatches prod batches) b
  | [], _, _ => by intro b hb; cases hb
  | c :: cs, prod, hne => by
    intro b hb
    have hstep : processBatches prod (c :: cs) = processBatches (insertBatch prod c) cs :=
      List.foldl_cons ..
    rcases List.mem_cons.mp hb with rfl | hmem
    · by_cases hok : batchOk prod b
      · obtain ⟨r, hr⟩ := List.exists_mem_of_ne_nil b (hne b (List.mem_cons_self b cs))
        intro habs
        apply habs.2 r hr
        have h1 : r ∈ insertBatch prod b := by
          unfold insertBatch
          rw [if_pos hok]
          exact List.mem_append_right _ hr
        have h2 : r ∈ processBatches prod (b :: cs) := by
          rw [hstep]
          exact subset_processBatches cs _ h1
        exact List.mem_map_of_mem natKey h2
      · intro habs
        apply hok
        apply batchOk_mono _ habs
        rw [hstep]
        exact (subset_insertBatch prod b).trans (subset_processBatches cs _)
    · rw [hstep]
      exact processBatches_blocks cs (insertBatch prod c)
        (fun x hx => hne x (List.mem_cons_of_mem c hx)) b hmem

theorem processBatches_of_blocked :
    ∀ (batches : List (List CitesRecord)) (prod : List CitesRecord),
      (∀ b ∈ batches, ¬ batchOk prod b) → processBatches prod batches = prod
  | [], _, _ => rfl
  | c :: cs, prod, h => by
    have hstep : processBatches prod (c :: cs) = processBatches (insertBatch prod c) cs :=
      List.foldl_cons ..
    have hc : insertBatch prod c = prod := by
      unfold insertBatch
      rw [if_neg (h c (List.mem_cons_self c cs))]
    rw [hstep, hc]
    exact processBatches_of_blocked cs prod (fun b hb => h b (List.mem_cons_of_mem c hb))

theorem mem_chunksOfAux_ne_nil {α : Type} {n : Nat} (hn : 0 < n) :
    ∀ (fuel : Nat) (l : List α), ∀ c ∈ chunksOfAux n fuel l, c ≠ []
  | 0, l => by simp [chunksOfAux]
  | fuel + 1, [] => by simp [chunksOfAux]
  | fuel + 1, x :: xs => by
    intro c hc
    rw [chunksOfAux] at hc
    rcases List.mem_cons.mp hc with rfl | hmem
    · exact List.ne_nil_of_length_pos
        (by rw [List.length_take]; exact lt_min hn (Nat.succ_pos _))
    · exact mem_chunksOfAux_ne_nil hn fuel _ c hmem

theorem mem_chunksOf_ne_nil {α : Type} {n : Nat} {l : List α} (hn : 0 < n) :
    ∀ c ∈ chunksOf n l, c ≠ [] :=
  mem_chunksOfAux_ne_nil hn l.length l

theorem chunksOfAux_flatten {α : Type} {n : Nat} (hn : 0 < n) :
    ∀ (fuel : Nat) (l : List α), l.length ≤ fuel →
      (chunksOfAux n fuel l).flatten = l
  | 0, l, hl => by
    have hnil : l = [] := List.length_eq_zero.mp (Nat.le_zero.mp hl)
    subst hnil
    rfl
  | fuel + 1, [], _ => rfl
  | fuel + 1, x :: xs, hl => by
    rw [chunksOfAux, List.flatten_cons,
      chunksOfAux_flatten hn fuel _ ?_, List.take_append_drop]
    rw [List.length_drop]
    simp only [List.length_cons] at hl ⊢
    omega

theorem chunksOf_flatten {α : Type} {n : Nat} (hn : 0 < n) (l : List α) :
    (chunksOf n l).flatten = l :=
  chunksOfAux_flatten hn l.length l (Nat.le_refl _)

/-- C2: running `execute_migration` a second time on the same unchanged
staging contents leaves the production row count unchanged: the uniqueness
constraint (built into the batch-insert model) rejects every batch of the
second run, because each batch either went in whole during the first run or
was already blocked by a collision that still exists. -/
theorem execute_migration_idempotent (staging : List StagingTableRow)
    (prod : List CitesRecord) :
    (execute_migration false staging (execute_migration false staging prod)).length =
      (execute_migration false staging prod).length := by
  show (processBatches (processBatches prod _) _).length = (processBatches prod _).length
  have hne : ∀ b ∈ (chunksOf 1000 staging).map (fun b => b.map cleanRecord), b ≠ [] := by
    intro b hb
    obtain ⟨c, hc, rfl⟩ := List.mem_map.mp hb
    have := mem_chunksOf_ne_nil (by norm_num) c hc
    simpa using this
  rw [processBatches_of_blocked _ _ (processBatches_blocks _ prod hne)]

/-- A concrete production record used by counterexamples and witnesses. -/
def prodRecordA : CitesRecord :=
  { species_id := some "sp-1"
    year := 2000
    appendix := some "II"
    taxon := "Ursus maritimus"
    class_ := some "Mammalia"
    order_name := none
    family := none
    genus := none
    importer := some "US"
    exporter := some "CA"
    origin := none
    importer_reported_quantity := some 2
    exporter_reported_quantity := some 2
    term := some "skins"
    unit := none
    purpose := some "T"
    source := some "W"
    data_source := "CITES 2024" }

/-- A staging row whose cleaned record collides with `prodRecordA` under
the natural key. -/
def stagingRowDup : StagingTableRow :=
  { id := "row-a"
    created_at := "t0"
    updated_at := "t0"
    payload := { prodRecordA with data_source := "CITES v2025.1" } }

/-- A staging row with a fresh natural key (different taxon). -/
def stagingRowNew : StagingTableRow :=
  { id := "row-b"
    created_at := "t0"
    updated_at := "t0"
    payload := { prodRecordA with
      taxon := "Monodon monoceros"
      data_source := "CITES v2025.1" } }

/-- C3 counterexample: with production `[prodRecordA]` and staging the
single batch `[stagingRowDup, stagingRowNew]`, the batch insert is rejected
because of the duplicate and the migration inserts nothing: the
non-duplicate row `stagingRowNew` is lost with its batch, contradicting the
claim that the remaining non-duplicate rows of a rejected batch are still
inserted. -/
theorem rejected_batch_loses_nonduplicate_rows :
    execute_migration false [stagingRowDup, stagingRowNew] [prodRecordA] =
      [prodRecordA] ∧
    cleanRecord stagingRowNew ∉
      execute_migration false [stagingRowDup, stagingRowNew] [prodRecordA] := by
  decide

/-- C3 (amended): when a batch's insert is rejected because some row in it
is a duplicate under the natural key, the entire batch is skipped — no row
of it, duplicate or not, is inserted — while the remaining batches are
still processed exactly as they would have been without it. -/
theorem rejected_batch_skipped (prod : List CitesRecord)
    (b : List CitesRecord) (bs : List (List CitesRecord))
    (h : ¬ batchOk prod b) :
    processBatches prod (b :: bs) = processBatches prod bs := by
  have hstep : processBatches prod (b :: bs) = processBatches (insertBatch prod b) bs :=
    List.foldl_cons ..
  rw [hstep]
  unfold insertBatch
  rw [if_neg h]

/-- Witness for the amended C3 theorem at a concrete rejected batch. -/
theorem rejected_batch_skipped_witness :
    ¬ batchOk [prodRecordA] [cleanRecord stagingRowDup, cleanRecord stagingRowNew] ∧
    processBatches [prodRecordA]
        [[cleanRecord stagingRowDup, cleanRecord stagingRowNew],
          [cleanRecord stagingRowNew]] =
      processBatches [prodRecordA] [[cleanRecord stagingRowNew]] :=
  ⟨by decide, rejected_batch_skipped _ _ _ (by decide)⟩

/-! ## Staging loader (`load_to_staging.py`, `resume_staging_load.py`)

The loader resolves species ids against the registry mapping, shapes the
extracted CSV rows into staging records, clears the staging table and
inserts in batches. Batch failures come from the external store and are
modelled by an oracle `ok : Nat → Bool` indexed by batch number. -/

/-- One row of the extracted CITES CSV as consumed by the loader.
`pd.notna` distinctions are `Option`; the `Quantity` cell (a pandas float
or NaN, never computed with) is opaque numeric data `Option Int`. -/
structure ExtractedRow where
  Year : Int
  Appendix : Option String
  Taxon : String
  Class : Option String
  Order : Option String
  Family : Option String
  Genus : Option String
  Importer : Option String
  Exporter : Option String
  Origin : Option String
  Quantity : Option Int
  Term : Option String
  Unit : Option String
  Purpose : Option String
  Source : Option String
  deriving DecidableEq, Repr

/-- A row of the mapped dataframe after `map_species_ids`: the original row
plus its resolved (non-null) `species_id`. -/
structure MappedRow where
  row : ExtractedRow
  species_id : String
  deriving DecidableEq, Repr

/-- Model of `CitesStageLoader.map_species_ids`: set `species_id` from the species
mapping by taxon name, then keep only the rows where it resolved (the
`df[df.species_id.notna()]` filter). -/
def map_species_ids (mapping : String → Option String) (df : List ExtractedRow) :
    List MappedRow :=
  df.filterMap (fun r => (mapping r.Taxon).map (fun i => MappedRow.mk r i))

/-- Model of `CitesStageLoader._safe_numeric` on a pandas numeric cell: `None` for a
missing value, the value itself otherwise. -/
def safe_numeric (v : Option Int) : Option Int :=
  match v with
  | none => none
  | some x => some x

/-- Model of `CitesStageLoader.prepare_staging_records`: shape each mapped row into
a staging record; both reported-quantity columns are populated from the
single `Quantity` cell. -/
def prepare_staging_records (df : List MappedRow) : List CitesRecord :=
  df.map (fun m =>
    { species_id := some m.species_id
      year := m.row.Year
      appendix := m.row.Appendix
      taxon := m.row.Taxon
      class_ := m.row.Class
      order_name := m.row.Order
      family := m.row.Family
      genus := m.row.Genus
      importer := m.row.Importer
      exporter := m.row.Exporter
      origin := m.row.Origin
      importer_reported_quantity := safe_numeric m.row.Quantity
      exporter_reported_quantity := safe_numeric m.row.Quantity
      term := m.row.Term
      unit := m.row.Unit
      purpose := m.row.Purpose
      source := m.row.Source
      data_source := "CITES v2025.1" })

/-- The zero UUID used by the delete filter in `clear_staging_table`. -/
def zeroUUID : String := "00000000-0000-0000-0000-000000000000"

/-- Model of `CitesStageLoader.clear_staging_table`: in dry-run mode no delete is
issued; otherwise `delete().neq('id', zeroUUID)` removes every row whose id
differs from the zero UUID. -/
def clear_staging_table (dry_run : Bool) (staging : List StagingTableRow) :
    List StagingTableRow :=
  if dry_run then staging
  else staging.filter (fun row => row.id = zeroUUID)

/-- A freshly inserted staging row. The DB-assigned `id`, `created_at` and
`updated_at` columns play no role in any property proved here and are
abstracted as empty strings. -/
def toStagingRow (r : CitesRecord) : StagingTableRow :=
  { id := "", created_at := "", updated_at := "", payload := r }

/-- The batched insert loop of `load_to_staging`: batch `i` succeeds when
`ok i`; a failed batch is logged, counted and skipped (`continue`).
Returns the staging state and the `(successful, failed)` row counters. -/
def loadBatches (ok : Nat → Bool) :
    Nat → List (List CitesRecord) → List StagingTableRow →
    List StagingTableRow × Nat × Nat
  | _, [], staging => (staging, 0, 0)
  | i, b :: bs, staging =>
    if ok i then
      let res := loadBatches ok (i + 1) bs (staging ++ b.map toStagingRow)
      (res.1, res.2.1 + b.length, res.2.2)
    else
      let res := loadBatches ok (i + 1) bs staging
      (res.1, res.2.1, res.2.2 + b.length)

/-- Model of `CitesStageLoader.load_to_staging`: dry-run performs no inserts;
otherwise the prepared records are inserted in batches of `batch_size`,
failed batches skipped and counted. -/
def load_to_staging (dry_run : Bool) (batch_size : Nat) (ok : Nat → Bool)
    (staging_records : List CitesRecord) (staging : List StagingTableRow) :
    List StagingTableRow × Nat × Nat :=
  if dry_run then (staging, 0, 0)
  else loadBatches ok 0 (chunksOf batch_size staging_records) staging

/-- The fresh-load pipeline of `load_to_staging.py` in `main` order:
resolve species ids, prepare staging records, clear the staging table,
load in batches. Returns the final staging state and the prepared
records (the preparation runs regardless of dry-run). -/
def run_staging_load (dry_run : Bool) (batch_size : Nat) (ok : Nat → Bool)
    (mapping : String → Option String) (df : List ExtractedRow)
    (staging : List StagingTableRow) :
    List StagingTableRow × List CitesRecord :=
  let staging_records := prepare_staging_records (map_species_ids mapping df)
  let cleared := clear_staging_table dry_run staging
  ((load_to_staging dry_run batch_size ok staging_records cleared).1, staging_records)

/-- The record preparation of `resume_staging_load.load_remaining_records`:
skip the first `current_count` rows (assumed already loaded), map species
ids without filtering (an unmapped taxon yields a null `species_id`), and
shape the records; both reported quantities come from the single
`Quantity` cell. -/
def load_remaining_records_prepare (mapping : String → Option String)
    (df : List ExtractedRow) (current_count : Nat) : List CitesRecord :=
  (df.drop current_count).map (fun r =>
    { species_id := mapping r.Taxon
      year := r.Year
      appendix := r.Appendix
      taxon := r.Taxon
      class_ := r.Class
      order_name := r.Order
      family := r.Family
      genus := r.Genus
      importer := r.Importer
      exporter := r.Exporter
      origin := r.Origin
      importer_reported_quantity := r.Quantity
      exporter_reported_quantity := r.Quantity
      term := r.Term
      unit := r.Unit
      purpose := r.Purpose
      source := r.Source
      data_source := "CITES v2025.1" })

/-- The `unmapped_count` computed by `map_species_ids`: total records minus
mapped records. -/
def unmappedCount (mapping : String → Option String) (df : List ExtractedRow) : Nat :=
  df.length - (map_species_ids mapping df).length

theorem map_species_ids_resolved {mapping : String → Option String}
    {df : List ExtractedRow} :
    ∀ m ∈ map_species_ids mapping df, mapping m.row.Taxon = some m.species_id := by
  intro m hm
  obtain ⟨r, hr, hf⟩ := List.mem_filterMap.mp hm
  cases hmap : mapping r.Taxon with
  | none => rw [hmap] at hf; cases hf
  | some i =>
    rw [hmap] at hf
    simp only [Option.map_some', Option.some_inj] at hf
    rw [← hf]
    exact hmap

theorem map_species_ids_length (mapping : String → Option String)
    (df : List ExtractedRow) :
    (map_species_ids mapping df).length =
      (df.filter (fun r => (mapping r.Taxon).isSome)).length := by
  induction df with
  | nil => rfl
  | cons r rs ih =>
    unfold map_species_ids at ih ⊢
    cases hm : mapping r.Taxon <;>
      simp [List.filterMap_cons, List.filter_cons, hm, ih]

theorem loadBatches_all_ok (ok : Nat → Bool) (hok : ∀ i, ok i = true) :
    ∀ (i : Nat) (bs : List (List CitesRecord)) (staging : List StagingTableRow),
      (loadBatches ok i bs staging).1.length =
        staging.length + (bs.map List.length).sum
  | _, [], staging => by simp [loadBatches]
  | i, b :: bs, staging => by
    have hrec := loadBatches_all_ok ok hok (i + 1) bs (staging ++ b.map toStagingRow)
    rw [loadBatches, if_pos (hok i)]
    dsimp only
    simp only [List.map_cons, List.sum_cons, List.length_append, List.length_map] at hrec ⊢
    omega

theorem chunksOf_length_sum {α : Type} {n : Nat} (hn : 0 < n) (l : List α) :
    ((chunksOf n l).map List.length).sum = l.length := by
  calc ((chunksOf n l).map List.length).sum
      = (chunksOf n l).flatten.length := (List.length_flatten _).symm
    _ = l.length := by rw [chunksOf_flatten hn l]

/-- C5: records whose taxon has no entry in the species mapping are
excluded from the set of records prepared for staging insertion and are
counted (`unmapped = total - mapped`); when every insert batch succeeds,
the staging row count after a fresh load equals the extracted record count
minus the unresolved count. -/
theorem staging_load_conservation (mapping : String → Option String)
    (df : List ExtractedRow) (ok : Nat → Bool) (batch_size : Nat)
    (staging : List StagingTableRow) (hbs : 0 < batch_size)
    (hok : ∀ i, ok i = true) (hids : ∀ row ∈ staging, row.id ≠ zeroUUID) :
    (∀ m ∈ map_species_ids mapping df, mapping m.row.Taxon = some m.species_id) ∧
    (map_species_ids mapping df).length =
      (df.filter (fun r => (mapping r.Taxon).isSome)).length ∧
    unmappedCount mapping df = df.length - (map_species_ids mapping df).length ∧
    (run_staging_load false batch_size ok mapping df staging).1.length =
      df.length - unmappedCount mapping df := by
  refine ⟨map_species_ids_resolved, map_species_ids_length mapping df, rfl, ?_⟩
  have hclear : clear_staging_table false staging = [] := by
    rw [clear_staging_table]
    simp only [Bool.false_eq_true, if_false]
    rw [List.filter_eq_nil_iff]
    intro row hrow
    simpa using hids row hrow
  show (load_to_staging false batch_size ok
    (prepare_staging_records (map_species_ids mapping df))
    (clear_staging_table false staging)).1.length = _
  rw [hclear, load_to_staging]
  simp only [Bool.false_eq_true, if_false]
  rw [loadBatches_all_ok ok hok 0 _ [], chunksOf_length_sum hbs]
  have hle : (map_species_ids mapping df).length ≤ df.length :=
    List.length_filterMap_le _ _
  unfold unmappedCount prepare_staging_records
  simp only [List.length_map, List.length_nil]
  omega

/-- A sample extracted CSV row used by concrete witnesses. -/
def sampleExtractedRow : ExtractedRow :=
  { Year := 2000
    Appendix := some "II"
    Taxon := "Ursus maritimus"
    Class := some "Mammalia"
    Order := none
    Family := none
    Genus := none
    Importer := some "US"
    Exporter := some "CA"
    Origin := none
    Quantity := some 3
    Term := some "skins"
    Unit := none
    Purpose := some "T"
    Source := some "W" }

/-- A sample extracted row whose taxon is not in the species mapping. -/
def sampleUnmappedRow : ExtractedRow :=
  { sampleExtractedRow with Taxon := "Vulpes vulpes" }

/-- A sample species mapping resolving only `Ursus maritimus`. -/
def sampleMapping : String → Option String :=
  fun t => if t = "Ursus maritimus" then some "sp-1" else none

/-- A sample extracted dataset: one mappable and one unmappable row. -/
def sampleDf : List ExtractedRow := [sampleExtractedRow, sampleUnmappedRow]

/-- Witness for C5 at a concrete two-row extraction (one resolvable row,
one unresolvable row), empty initial staging, every batch succeeding. -/
theorem staging_load_conservation_witness :
    (run_staging_load false 5000 (fun _ => true) sampleMapping sampleDf []).1.length =
      sampleDf.length - unmappedCount sampleMapping sampleDf :=
  (staging_load_conservation sampleMapping sampleDf (fun _ => true) 5000 []
    (by decide) (fun _ => rfl) (fun row h => absurd h (List.not_mem_nil row))).2.2.2

/-- C8: with dry-run enabled, the staging loader issues no delete and no
insert and the migration issues no insert: the staging and production
states are returned unchanged, while the preparation logic still runs and
computes exactly the records a real run would load. -/
theorem dry_run_leaves_tables_unchanged (mapping : String → Option String)
    (df : List ExtractedRow) (ok : Nat → Bool) (batch_size : Nat)
    (staging : List StagingTableRow) (prod : List CitesRecord)
    (staging_records : List CitesRecord) :
    (run_staging_load true batch_size ok mapping df staging).1 = staging ∧
    clear_staging_table true staging = staging ∧
    load_to_staging true batch_size ok staging_records staging = (staging, 0, 0) ∧
    (run_staging_load true batch_size ok mapping df staging).2 =
      (run_staging_load false batch_size ok mapping df staging).2 ∧
    execute_migration true staging prod = prod :=
  ⟨rfl, rfl, rfl, rfl, rfl⟩

/-- C10: every staging record produced by the loader's preparation — fresh
path and resume path alike — carries the same value in
`importer_reported_quantity` and `exporter_reported_quantity`: both are
populated from the single `Quantity` cell. -/
theorem reported_quantities_equal :
    (∀ (df : List MappedRow), ∀ r ∈ prepare_staging_records df,
      r.importer_reported_quantity = r.exporter_reported_quantity) ∧
    (∀ (mapping : String → Option String) (df : List ExtractedRow)
      (current_count : Nat),
      ∀ r ∈ load_remaining_records_prepare mapping df current_count,
        r.importer_reported_quantity = r.exporter_reported_quantity) := by
  constructor
  · intro df r hr
    obtain ⟨m, -, rfl⟩ := List.mem_map.mp hr
    rfl
  · intro mapping df current_count r hr
    obtain ⟨x, -, rfl⟩ := List.mem_map.mp hr
    rfl

/-- A sample mapped row used by the C10 witness. -/
def sampleMappedRow : MappedRow := { row := sampleExtractedRow, species_id := "sp-1" }

/-- Witness for C10: the concrete record prepared from `sampleMappedRow`
has equal reported-quantity fields. -/
theorem reported_quantities_equal_witness :
    ((prepare_staging_records [sampleMappedRow]).headD prodRecordA).importer_reported_quantity =
      ((prepare_staging_records [sampleMappedRow]).headD prodRecordA).exporter_reported_quantity :=
  reported_quantities_equal.1 [sampleMappedRow]
    ((prepare_staging_records [sampleMappedRow]).headD prodRecordA) (by decide)

/-! ## Validation gate (`validate_staging.py`) -/

/-- Outcome of one validation check: the returned boolean and how many
entries the check appended to each of the validator's result lists and
counters. -/
structure CheckOutcome where
  passed : Bool
  checks_passed : Nat
  checks_failed : Nat
  critical_issues : Nat
  warnings : Nat
  deriving DecidableEq, Repr

/-- The hard-coded expected staging record count of `check_record_count`. -/
def expected_count : Nat := 489148

/-- Model of `StagingValidator.check_record_count`: pass on exact match; on a
shortfall always warn, and fail with a critical issue exactly when the
shortfall exceeds 10% of the expected count (`missing > expected * 0.1`;
since `expected * 0.1` is never an integer the float comparison coincides
with `10 * missing > expected` over the integers); on an excess warn and
pass. -/
def check_record_count (staging_count : Nat) : CheckOutcome :=
  if staging_count = expected_count then
    { passed := true
      checks_passed := 1
      checks_failed := 0
      critical_issues := 0
      warnings := 0 }
  else if staging_count < expected_count then
    let missing := expected_count - staging_count
    if 10 * missing > expected_count then
      { passed := false
        checks_passed := 0
        checks_failed := 1
        critical_issues := 1
        warnings := 1 }
    else
      { passed := true
        checks_passed := 1
        checks_failed := 0
        critical_issues := 0
        warnings := 1 }
  else
    { passed := true
      checks_passed := 1
      checks_failed := 0
      critical_issues := 0
      warnings := 1 }

/-- C7: the record-count check fails (returns `False`) and records a
critical issue exactly when the staging count falls short of the expected
count by more than 10% of the expected count; any smaller shortfall warns
but passes, and an excess always warns and passes. -/
theorem check_record_count_spec (staging_count : Nat) :
    ((check_record_count staging_count).passed = false ↔
      (staging_count < expected_count ∧
        10 * (expected_count - staging_count) > expected_count)) ∧
    ((check_record_count staging_count).critical_issues > 0 ↔
      (check_record_count staging_count).passed = false) ∧
    (staging_count < expected_count →
      (check_record_count staging_count).warnings > 0) ∧
    (expected_count < staging_count →
      (check_record_count staging_count).passed = true ∧
      (check_record_count staging_count).warnings > 0) := by
  unfold check_record_count expected_count
  dsimp only
  split_ifs with h1 h2 h3 <;>
    refine ⟨?_, ?_, ?_, ?_⟩ <;> simp <;> omega

/-- Witness for C7 at the concrete staging count 500000 (an excess):
check passes with a warning. -/
theorem check_record_count_spec_witness :
    (check_record_count 500000).passed = true ∧
      (check_record_count 500000).warnings > 0 :=
  (check_record_count_spec 500000).2.2.2 (by decide)

/-! ## Backup controller (`backup_cites_data.py`) -/

/-- The inputs of `validate_backup`, as observed by its checks: existence
of the backup file, the parsed backup row count and column list, the live
table count, and the number of null `species_id` rows in the backup. -/
structure BackupInput where
  file_exists : Bool
  backup_rows : Nat
  columns : List String
  current_count : Nat
  null_species : Nat
  deriving DecidableEq, Repr

/-- The required columns checked by `validate_backup`. -/
def required_columns : List String :=
  ["id", "species_id", "year", "appendix", "taxon", "quantity"]

/-- Model of `CitesBackupCreator.validate_backup`: fail when the file is missing,
then when the backup row count differs from the live table count, then
when a required column is missing; null `species_id` rows only warn. -/
def validate_backup (b : BackupInput) : Bool :=
  if ¬ b.file_exists then false
  else if b.backup_rows ≠ b.current_count then false
  else if (required_columns.filter (fun c => c ∉ b.columns)) ≠ [] then false
  else true

/-- C9: `validate_backup` declares the backup valid (returns `True`) only
when the backup file's row count equals the live production table's row
count; any count mismatch makes it return `False` before the backup can be
declared valid. -/
theorem validate_backup_count_match (b : BackupInput)
    (h : validate_backup b = true) : b.backup_rows = b.current_count := by
  unfold validate_backup at h
  split_ifs at h with h1 h2 h3
  all_goals simp_all

/-- A complete, consistent backup input used by the C9 witness. -/
def sampleBackupInput : BackupInput :=
  { file_exists := true
    backup_rows := 5
    columns := required_columns
    current_count := 5
    null_species := 0 }

/-- Witness for C9 at a concrete valid backup input. -/
theorem validate_backup_count_match_witness :
    sampleBackupInput.backup_rows = sampleBackupInput.current_count :=
  validate_backup_count_match sampleBackupInput (by decide)

/-! ## Streaming extraction (`extract_arctic_trade_data.py`)

`process_single_file` streams one trade CSV in chunks of 50000 rows and
accumulates per-file statistics; `extract_all_arctic_data` aggregates the
per-file statistics into global counters, in particular
`species_match_counts`. -/

/-- One row of a CITES trade-database CSV as used by the extractor: the
`Taxon` column drives matching; `row_id` stands for the rest of the row. -/
structure TradeCsvRow where
  row_id : String
  Taxon : String
  deriving DecidableEq, Repr

/-- The per-file statistics accumulated by `process_single_file`. -/
structure FileStats where
  records_scanned : Nat
  arctic_records : Nat
  species_found : List String
  deriving DecidableEq, Repr

/-- Python `set.update`: extend the set with the elements not yet present
(the set is modelled as a duplicate-free list). -/
def unionList (a b : List String) : List String :=
  a ++ b.filter (fun x => x ∉ a)

/-- Model of `ArcticTradeDataExtractor.process_single_file`: stream the file in
chunks of 50000 rows, keep the rows whose `Taxon` is an Arctic species,
and accumulate the scanned count, the matched count and the set of species
seen (updated only for non-empty matched chunks). -/
def process_single_file (arctic_species : List String)
    (file : List TradeCsvRow) : FileStats :=
  (chunksOf 50000 file).foldl
    (fun st chunk =>
      let arctic_chunk := chunk.filter (fun row => row.Taxon ∈ arctic_species)
      { records_scanned := st.records_scanned + chunk.length
        arctic_records := st.arctic_records + arctic_chunk.length
        species_found :=
          if 0 < arctic_chunk.length then
            unionList st.species_found
              ((arctic_chunk.map (fun r => r.Taxon)).dedup)
          else st.species_found })
    { records_scanned := 0, arctic_records := 0, species_found := [] }

/-- The dict update `species_match_counts[species] += n` of
`extract_all_arctic_data` on an association list: increment when present,
append when absent. -/
def addCount (counts : List (String × Nat)) (species : String) (n : Nat) :
    List (String × Nat) :=
  if counts.any (fun p => p.1 = species) then
    counts.map (fun p => if p.1 = species then (p.1, p.2 + n) else p)
  else counts ++ [(species, n)]

/-- The `species_match_counts` aggregation of `extract_all_arctic_data`:
for every file result, every species in its `species_found` has that
file's total `arctic_records` count added to its entry. -/
def species_match_counts (arctic_species : List String)
    (files : List (List TradeCsvRow)) : List (String × Nat) :=
  files.foldl
    (fun counts f =>
      let st := process_single_file arctic_species f
      st.species_found.foldl (fun c sp => addCount c sp st.arctic_records) counts)
    []

/-- The two-species single file on which the per-species counter is wrong:
one polar-bear row and one narwhal row. -/
def c6File : List TradeCsvRow :=
  [TradeCsvRow.mk "1" "Ursus maritimus", TradeCsvRow.mk "2" "Monodon monoceros"]

/-- C6 (code bug): after extracting a single file that holds one
`Ursus maritimus` row and one `Monodon monoceros` row (both Arctic
species), `species_match_counts` records 2 for `Ursus maritimus`, while
the number of matched rows whose `Taxon` equals `Ursus maritimus` is 1:
the aggregation adds the file's TOTAL match count to every species found
in the file instead of the per-species count. -/
theorem species_match_counts_overcount :
    (species_match_counts ["Ursus maritimus", "Monodon monoceros"]
      [c6File]).lookup "Ursus maritimus" = some 2 ∧
    ((c6File.filter
        (fun r => r.Taxon ∈ ["Ursus maritimus", "Monodon monoceros"])).filter
      (fun r => r.Taxon = "Ursus maritimus")).length = 1 := by
  decide

end ArcticTracker
